import Mathlib

/-!
Shallow embedding of the `sambuca_core` package (Lee/Sambuca semi-analytical
forward model, plus the sensor-filter application step).

Spectra (numpy 1-d arrays) are embedded as `List ℝ`; elementwise numpy
operations become `List.zipWith` / `List.map` combinators.  Python floats are
embedded as real numbers, `math`/`numpy` transcendental functions as their
Mathlib counterparts (`Real.exp`, `Real.sin`, `Real.arcsin`, `Real.cos`,
`Real.rpow`, `Real.pi`).  The `assert` guards at the top of `forward_model`
become an `Option` result: `none` models the rejected (raising) call.
-/

open Real

noncomputable section

/-! ## Elementwise array operations (numpy broadcasting on equal-length arrays) -/

/-- Elementwise sum of two arrays (`xs + ys` in numpy). -/
def eAdd (xs ys : List ℝ) : List ℝ := List.zipWith (fun x y => x + y) xs ys

/-- Elementwise product of two arrays (`xs * ys` in numpy). -/
def eMul (xs ys : List ℝ) : List ℝ := List.zipWith (fun x y => x * y) xs ys

/-- Elementwise quotient of two arrays (`xs / ys` in numpy). -/
def eDiv (xs ys : List ℝ) : List ℝ := List.zipWith (fun x y => x / y) xs ys

/-- Scalar times array (`c * xs` in numpy). -/
def sMul (c : ℝ) (xs : List ℝ) : List ℝ := xs.map (fun x => c * x)

/-- Array times scalar (`xs * c` in numpy). -/
def mulS (xs : List ℝ) (c : ℝ) : List ℝ := xs.map (fun x => x * c)

/-- Scalar plus array (`c + xs` in numpy). -/
def sAdd (c : ℝ) (xs : List ℝ) : List ℝ := xs.map (fun x => c + x)

/-- Scalar minus array (`c - xs` in numpy). -/
def sSub (c : ℝ) (xs : List ℝ) : List ℝ := xs.map (fun x => c - x)

/-- Elementwise negation (`-xs` in numpy). -/
def negE (xs : List ℝ) : List ℝ := xs.map (fun x => -x)

/-- Elementwise exponential (`np.exp`). -/
noncomputable def expE (xs : List ℝ) : List ℝ := xs.map (fun x => Real.exp x)

/-- Elementwise real power with scalar exponent (`np.power(xs, e)`). -/
noncomputable def powE (xs : List ℝ) (e : ℝ) : List ℝ := xs.map (fun x => Real.rpow x e)

/-- Band accessor: value of array `xs` at band `i` (0 outside the array). -/
def band (xs : List ℝ) (i : ℕ) : ℝ := xs.getD i 0

/-! ## Index and length lemmas for the elementwise operations -/

theorem band_of_lt {xs : List ℝ} {i : ℕ} (h : i < xs.length) :
    band xs i = xs.get ⟨i, h⟩ := by
  simp [band, List.getD_eq_getElem?_getD, List.getElem?_eq_getElem h]

theorem length_eAdd (xs ys : List ℝ) : (eAdd xs ys).length = min xs.length ys.length := by
  simp [eAdd]

theorem length_eMul (xs ys : List ℝ) : (eMul xs ys).length = min xs.length ys.length := by
  simp [eMul]

theorem length_eDiv (xs ys : List ℝ) : (eDiv xs ys).length = min xs.length ys.length := by
  simp [eDiv]

theorem length_sMul (c : ℝ) (xs : List ℝ) : (sMul c xs).length = xs.length := by
  simp [sMul]

theorem length_mulS (c : ℝ) (xs : List ℝ) : (mulS xs c).length = xs.length := by
  simp [mulS]

theorem length_sAdd (c : ℝ) (xs : List ℝ) : (sAdd c xs).length = xs.length := by
  simp [sAdd]

theorem length_sSub (c : ℝ) (xs : List ℝ) : (sSub c xs).length = xs.length := by
  simp [sSub]

theorem length_negE (xs : List ℝ) : (negE xs).length = xs.length := by
  simp [negE]

theorem length_expE (xs : List ℝ) : (expE xs).length = xs.length := by
  simp [expE]

theorem length_powE (xs : List ℝ) (e : ℝ) : (powE xs e).length = xs.length := by
  simp [powE]

theorem band_eAdd {xs ys : List ℝ} {i : ℕ} (h1 : i < xs.length) (h2 : i < ys.length) :
    band (eAdd xs ys) i = band xs i + band ys i := by
  have h : i < (eAdd xs ys).length := by
    simp [length_eAdd, h1, h2]
  rw [band_of_lt h, band_of_lt h1, band_of_lt h2]
  simp [eAdd]

theorem band_eMul {xs ys : List ℝ} {i : ℕ} (h1 : i < xs.length) (h2 : i < ys.length) :
    band (eMul xs ys) i = band xs i * band ys i := by
  have h : i < (eMul xs ys).length := by
    simp [length_eMul, h1, h2]
  rw [band_of_lt h, band_of_lt h1, band_of_lt h2]
  simp [eMul]

theorem band_eDiv {xs ys : List ℝ} {i : ℕ} (h1 : i < xs.length) (h2 : i < ys.length) :
    band (eDiv xs ys) i = band xs i / band ys i := by
  have h : i < (eDiv xs ys).length := by
    simp [length_eDiv, h1, h2]
  rw [band_of_lt h, band_of_lt h1, band_of_lt h2]
  simp [eDiv]

theorem band_sMul {c : ℝ} {xs : List ℝ} {i : ℕ} (h : i < xs.length) :
    band (sMul c xs) i = c * band xs i := by
  have h2 : i < (sMul c xs).length := by
    simp [length_sMul, h]
  rw [band_of_lt h2, band_of_lt h]
  simp [sMul]

theorem band_mulS {c : ℝ} {xs : List ℝ} {i : ℕ} (h : i < xs.length) :
    band (mulS xs c) i = band xs i * c := by
  have h2 : i < (mulS xs c).length := by
    simp [length_mulS, h]
  rw [band_of_lt h2, band_of_lt h]
  simp [mulS]

theorem band_sAdd {c : ℝ} {xs : List ℝ} {i : ℕ} (h : i < xs.length) :
    band (sAdd c xs) i = c + band xs i := by
  have h2 : i < (sAdd c xs).length := by
    simp [length_sAdd, h]
  rw [band_of_lt h2, band_of_lt h]
  simp [sAdd]

theorem band_sSub {c : ℝ} {xs : List ℝ} {i : ℕ} (h : i < xs.length) :
    band (sSub c xs) i = c - band xs i := by
  have h2 : i < (sSub c xs).length := by
    simp [length_sSub, h]
  rw [band_of_lt h2, band_of_lt h]
  simp [sSub]

theorem band_negE {xs : List ℝ} {i : ℕ} (h : i < xs.length) :
    band (negE xs) i = -(band xs i) := by
  have h2 : i < (negE xs).length := by
    simp [length_negE, h]
  rw [band_of_lt h2, band_of_lt h]
  simp [negE]

theorem band_expE {xs : List ℝ} {i : ℕ} (h : i < xs.length) :
    band (expE xs) i = Real.exp (band xs i) := by
  have h2 : i < (expE xs).length := by
    simp [length_expE, h]
  rw [band_of_lt h2, band_of_lt h]
  simp [expE]

theorem band_powE {xs : List ℝ} {e : ℝ} {i : ℕ} (h : i < xs.length) :
    band (powE xs e) i = Real.rpow (band xs i) e := by
  have h2 : i < (powE xs e).length := by
    simp [length_powE, h]
  rw [band_of_lt h2, band_of_lt h]
  simp [powE]

/-! ## The forward model (src/sambuca_core/forward_model.py) -/

/-- All parameters of `forward_model`, in the source's order.  Optional
parameters carry no default here: every claim quantifies over them. -/
structure FMInputs where
  chl : ℝ
  cdom : ℝ
  nap : ℝ
  depth : ℝ
  substrate1 : List ℝ
  wavelengths : List ℝ
  awater : List ℝ
  aphy_star : List ℝ
  num_bands : ℕ
  substrate_fraction : ℝ
  substrate2 : Option (List ℝ)
  slope_cdom : ℝ
  slope_nap : ℝ
  slope_backscatter : ℝ
  lambda0cdom : ℝ
  lambda0nap : ℝ
  lambda0x : ℝ
  x_ph_lambda0x : ℝ
  x_nap_lambda0x : ℝ
  a_cdom_lambda0cdom : ℝ
  a_nap_lambda0nap : ℝ
  bb_lambda_ref : ℝ
  water_refractive_index : ℝ
  theta_air : ℝ
  off_nadir : ℝ

/-- The result record `ForwardModelResults`, with its eight fields in the
source's order. -/
structure ForwardModelResults where
  r_substratum : List ℝ
  rrs : List ℝ
  rrsdp : List ℝ
  kd : List ℝ
  kub : List ℝ
  kuc : List ℝ
  a : List ℝ
  bb : List ℝ

/-- Python `math.radians`: degrees to radians. -/
def radians (x : ℝ) : ℝ := x * Real.pi / 180

/-- The `assert` guards at the top of `forward_model` (lines 116-121),
as one boolean check. -/
def shape_ok (p : FMInputs) : Bool :=
  (p.substrate1.length == p.num_bands) &&
  (match p.substrate2 with
   | none => true
   | some s2 => s2.length == p.num_bands) &&
  (p.wavelengths.length == p.num_bands) &&
  (p.awater.length == p.num_bands) &&
  (p.aphy_star.length == p.num_bands)

/-- Source: `inv_refractive_index = 1.0 / water_refractive_index` (line 124).
Total real division is used here (1/0 = 0 in Lean), which is only faithful to
the value a non-raising call computes: the ZeroDivisionError the source raises
at this line when `water_refractive_index = 0.0` is modelled separately by the
guard in `forward_model_py` below. -/
def fm_inv_refractive_index (p : FMInputs) : ℝ := 1.0 / p.water_refractive_index

/-- Sub-surface solar zenith angle in radians (line 125).  `Real.arcsin` agrees
with `math.asin` on [-1, 1]; outside that interval `math.asin` raises
ValueError where `Real.arcsin` clamps, so that raise path is modelled by the
corresponding guard in `forward_model_py` and this definition is only relied on
for the value a non-raising call computes. -/
def fm_thetaw (p : FMInputs) : ℝ :=
  Real.arcsin (fm_inv_refractive_index p * Real.sin (radians p.theta_air))

/-- Sub-surface viewing angle in radians (line 128).  Same raise-path caveat as
`fm_thetaw`: the out-of-domain ValueError of `math.asin` is modelled by the
corresponding guard in `forward_model_py`. -/
def fm_thetao (p : FMInputs) : ℝ :=
  Real.arcsin (fm_inv_refractive_index p * Real.sin (radians p.off_nadir))

/-- Source: `bbwater = (0.00194 / 2.0) * np.power(bb_lambda_ref / wavelengths, 4.32)`
(line 132). -/
def fm_bbwater (p : FMInputs) : List ℝ :=
  sMul (0.00194 / 2.0) (powE (p.wavelengths.map (fun w => p.bb_lambda_ref / w)) 4.32)

/-- Source: `acdom_star = a_cdom_lambda0cdom * exp(-slope_cdom * (wavelengths - lambda0cdom))`
(lines 133-134). -/
def fm_acdom_star (p : FMInputs) : List ℝ :=
  sMul p.a_cdom_lambda0cdom
    (expE (p.wavelengths.map (fun w => -p.slope_cdom * (w - p.lambda0cdom))))

/-- Source: `atr_star = a_nap_lambda0nap * exp(-slope_nap * (wavelengths - lambda0nap))`
(lines 135-136). -/
def fm_atr_star (p : FMInputs) : List ℝ :=
  sMul p.a_nap_lambda0nap
    (expE (p.wavelengths.map (fun w => -p.slope_nap * (w - p.lambda0nap))))

/-- Source: `backscatter = np.power(lambda0x / wavelengths, slope_backscatter)` (line 139). -/
def fm_backscatter (p : FMInputs) : List ℝ :=
  powE (p.wavelengths.map (fun w => p.lambda0x / w)) p.slope_backscatter

/-- Source: `bbph_star = x_ph_lambda0x * backscatter` (line 141). -/
def fm_bbph_star (p : FMInputs) : List ℝ := sMul p.x_ph_lambda0x (fm_backscatter p)

/-- Source: `bbtr_star = x_nap_lambda0x * backscatter` (line 143). -/
def fm_bbtr_star (p : FMInputs) : List ℝ := sMul p.x_nap_lambda0x (fm_backscatter p)

/-- Source: `a = awater + chl * aphy_star + cdom * acdom_star + nap * atr_star` (line 146). -/
def fm_a (p : FMInputs) : List ℝ :=
  eAdd (eAdd (eAdd p.awater (sMul p.chl p.aphy_star)) (sMul p.cdom (fm_acdom_star p)))
    (sMul p.nap (fm_atr_star p))

/-- Source: `bb = bbwater + chl * bbph_star + nap * bbtr_star` (line 148). -/
def fm_bb (p : FMInputs) : List ℝ :=
  eAdd (eAdd (fm_bbwater p) (sMul p.chl (fm_bbph_star p))) (sMul p.nap (fm_bbtr_star p))

/-- Combined bottom reflectance from the two substrates (lines 150-154). -/
def fm_r_substratum (p : FMInputs) : List ℝ :=
  match p.substrate2 with
  | none => p.substrate1
  | some s2 =>
      eAdd (sMul p.substrate_fraction p.substrate1) (sMul (1.0 - p.substrate_fraction) s2)

/-- Source: `kappa = a + bb` (line 157). -/
def fm_kappa (p : FMInputs) : List ℝ := eAdd (fm_a p) (fm_bb p)

/-- Source: `u = bb / kappa` (line 158). -/
def fm_u (p : FMInputs) : List ℝ := eDiv (fm_bb p) (fm_kappa p)

/-- Source: `du_column = 1.03 * np.power(1.00 + (2.40 * u), 0.50)` (line 163). -/
def fm_du_column (p : FMInputs) : List ℝ :=
  sMul 1.03 (powE (sAdd 1.00 (sMul 2.40 (fm_u p))) 0.50)

/-- Source: `du_bottom = 1.04 * np.power(1.00 + (5.40 * u), 0.50)` (line 165). -/
def fm_du_bottom (p : FMInputs) : List ℝ :=
  sMul 1.04 (powE (sAdd 1.00 (sMul 5.40 (fm_u p))) 0.50)

/-- Source: `rrsdp = (0.084 + 0.17 * u) * u` (line 168). -/
def fm_rrsdp (p : FMInputs) : List ℝ :=
  eMul (sAdd 0.084 (sMul 0.17 (fm_u p))) (fm_u p)

/-- Source: `inv_cos_thetaw = 1.0 / cos(thetaw)` (line 171). -/
def fm_inv_cos_thetaw (p : FMInputs) : ℝ := 1.0 / Real.cos (fm_thetaw p)

/-- Source: `inv_cos_theta0 = 1.0 / cos(thetao)` (line 172). -/
def fm_inv_cos_theta0 (p : FMInputs) : ℝ := 1.0 / Real.cos (fm_thetao p)

/-- Source: `du_column_scaled = du_column * inv_cos_theta0` (line 173). -/
def fm_du_column_scaled (p : FMInputs) : List ℝ :=
  mulS (fm_du_column p) (fm_inv_cos_theta0 p)

/-- Source: `du_bottom_scaled = du_bottom * inv_cos_theta0` (line 174). -/
def fm_du_bottom_scaled (p : FMInputs) : List ℝ :=
  mulS (fm_du_bottom p) (fm_inv_cos_theta0 p)

/-- Source: `kd = kappa * inv_cos_thetaw` (line 177). -/
def fm_kd (p : FMInputs) : List ℝ := mulS (fm_kappa p) (fm_inv_cos_thetaw p)

/-- Source: `kuc = kappa * du_column_scaled` (line 178). -/
def fm_kuc (p : FMInputs) : List ℝ := eMul (fm_kappa p) (fm_du_column_scaled p)

/-- Source: `kub = kappa * du_bottom_scaled` (line 179). -/
def fm_kub (p : FMInputs) : List ℝ := eMul (fm_kappa p) (fm_du_bottom_scaled p)

/-- Source: `kappa_d = kappa * depth` (line 182). -/
def fm_kappa_d (p : FMInputs) : List ℝ := mulS (fm_kappa p) p.depth

/-- Remotely sensed reflectance (lines 183-186):
`rrs = rrsdp * (1.0 - exp(-(inv_cos_thetaw + du_column_scaled) * kappa_d))
     + (1.0 / pi) * r_substratum * exp(-(inv_cos_thetaw + du_bottom_scaled) * kappa_d)`. -/
def fm_rrs (p : FMInputs) : List ℝ :=
  eAdd
    (eMul (fm_rrsdp p)
      (sSub 1.0
        (expE (eMul (negE (sAdd (fm_inv_cos_thetaw p) (fm_du_column_scaled p)))
          (fm_kappa_d p)))))
    (eMul (sMul (1.0 / Real.pi) (fm_r_substratum p))
      (expE (eMul (negE (sAdd (fm_inv_cos_thetaw p) (fm_du_bottom_scaled p)))
        (fm_kappa_d p))))

/-- The computation of `forward_model` past its `assert` guards, packaging the
eight results in the source's return order (lines 188-197). -/
def forward_model_unchecked (p : FMInputs) : ForwardModelResults :=
  ⟨fm_r_substratum p, fm_rrs p, fm_rrsdp p, fm_kd p, fm_kub p, fm_kuc p, fm_a p, fm_bb p⟩

/-- Source: `forward_model`, value-level view: the `assert` guards
(lines 116-121) reject the call (`none`) before any computation; otherwise the
result record a non-raising call returns is built.  This view identifies every
non-assert exit with `some`; the scalar raise paths inside the computation
(lines 124, 125 and 128) are modelled by the refinement `forward_model_py`
below, and every claim about returned values is conditioned on the call
returning. -/
def forward_model (p : FMInputs) : Option ForwardModelResults :=
  if shape_ok p then some (forward_model_unchecked p) else none

/-- The exceptions `forward_model` can raise: AssertionError from the shape
guards (lines 116-121), ZeroDivisionError from the scalar division
`1.0 / water_refractive_index` (line 124), and ValueError from `math.asin`
applied outside [-1, 1] (lines 125 and 128). -/
inductive PyErr where
  | assertionError : PyErr
  | zeroDivisionError : PyErr
  | valueError : PyErr

/-- Source: `forward_model`, raise-level view.  The `assert` guards run first
(lines 116-121); then `1.0 / water_refractive_index` raises ZeroDivisionError
when the refractive index is 0.0 (line 124); then `math.asin` raises
ValueError when its argument lies outside [-1, 1], first for the solar zenith
angle (line 125), then for the viewing angle (line 128).  On real-valued
inputs these are the only raise paths of the remaining computation: all later
divisions and powers are numpy array operations, which propagate inf/nan
instead of raising (lines 132-168 and 182-186), and the scalar
`1.0 / cos(theta)` divisions (lines 171-172) cannot divide by zero because
the float cosine of a float in [-pi/2, pi/2] is never exactly zero. -/
def forward_model_py (p : FMInputs) : Except PyErr ForwardModelResults :=
  if shape_ok p then
    if p.water_refractive_index = 0 then Except.error PyErr.zeroDivisionError
    else if 1 < |fm_inv_refractive_index p * Real.sin (radians p.theta_air)| then
      Except.error PyErr.valueError
    else if 1 < |fm_inv_refractive_index p * Real.sin (radians p.off_nadir)| then
      Except.error PyErr.valueError
    else Except.ok (forward_model_unchecked p)
  else Except.error PyErr.assertionError

/-! ## Shape predicate and length facts -/

/-- Propositional form of the `assert` guards: every per-band input sequence
has length `num_bands`. -/
def LenOk (p : FMInputs) : Prop :=
  p.substrate1.length = p.num_bands ∧
  (∀ s2 ∈ p.substrate2, s2.length = p.num_bands) ∧
  p.wavelengths.length = p.num_bands ∧
  p.awater.length = p.num_bands ∧
  p.aphy_star.length = p.num_bands

theorem shape_ok_iff {p : FMInputs} : shape_ok p = true ↔ LenOk p := by
  unfold shape_ok LenOk
  cases h2 : p.substrate2 with
  | none =>
      simp [h2]
      tauto
  | some s2 =>
      simp [h2]
      tauto

theorem band_map {f : ℝ → ℝ} {xs : List ℝ} {i : ℕ} (h : i < xs.length) :
    band (xs.map f) i = f (band xs i) := by
  have h2 : i < (xs.map f).length := by simp [h]
  rw [band_of_lt h2, band_of_lt h]
  simp

theorem length_fm_bbwater (p : FMInputs) :
    (fm_bbwater p).length = p.wavelengths.length := by
  simp [fm_bbwater, length_sMul, length_powE]

theorem length_fm_acdom_star (p : FMInputs) :
    (fm_acdom_star p).length = p.wavelengths.length := by
  simp [fm_acdom_star, length_sMul, length_expE]

theorem length_fm_atr_star (p : FMInputs) :
    (fm_atr_star p).length = p.wavelengths.length := by
  simp [fm_atr_star, length_sMul, length_expE]

theorem length_fm_backscatter (p : FMInputs) :
    (fm_backscatter p).length = p.wavelengths.length := by
  simp [fm_backscatter, length_powE]

theorem length_fm_bbph_star (p : FMInputs) :
    (fm_bbph_star p).length = p.wavelengths.length := by
  simp [fm_bbph_star, length_sMul, length_fm_backscatter]

theorem length_fm_bbtr_star (p : FMInputs) :
    (fm_bbtr_star p).length = p.wavelengths.length := by
  simp [fm_bbtr_star, length_sMul, length_fm_backscatter]

theorem length_fm_a {p : FMInputs} (h : LenOk p) : (fm_a p).length = p.num_bands := by
  obtain ⟨_, _, hw, ha, hp⟩ := h
  simp [fm_a, length_eAdd, length_sMul, length_fm_acdom_star, length_fm_atr_star,
    hw, ha, hp]

theorem length_fm_bb {p : FMInputs} (h : LenOk p) : (fm_bb p).length = p.num_bands := by
  obtain ⟨_, _, hw, _, _⟩ := h
  simp [fm_bb, length_eAdd, length_sMul, length_fm_bbwater, length_fm_bbph_star,
    length_fm_bbtr_star, hw]

theorem length_fm_kappa {p : FMInputs} (h : LenOk p) :
    (fm_kappa p).length = p.num_bands := by
  simp [fm_kappa, length_eAdd, length_fm_a h, length_fm_bb h]

theorem length_fm_u {p : FMInputs} (h : LenOk p) : (fm_u p).length = p.num_bands := by
  simp [fm_u, length_eDiv, length_fm_bb h, length_fm_kappa h]

theorem length_fm_du_column {p : FMInputs} (h : LenOk p) :
    (fm_du_column p).length = p.num_bands := by
  simp [fm_du_column, length_sMul, length_powE, length_sAdd, length_fm_u h]

theorem length_fm_du_bottom {p : FMInputs} (h : LenOk p) :
    (fm_du_bottom p).length = p.num_bands := by
  simp [fm_du_bottom, length_sMul, length_powE, length_sAdd, length_fm_u h]

theorem length_fm_du_column_scaled {p : FMInputs} (h : LenOk p) :
    (fm_du_column_scaled p).length = p.num_bands := by
  simp [fm_du_column_scaled, length_mulS, length_fm_du_column h]

theorem length_fm_du_bottom_scaled {p : FMInputs} (h : LenOk p) :
    (fm_du_bottom_scaled p).length = p.num_bands := by
  simp [fm_du_bottom_scaled, length_mulS, length_fm_du_bottom h]

theorem length_fm_rrsdp {p : FMInputs} (h : LenOk p) :
    (fm_rrsdp p).length = p.num_bands := by
  simp [fm_rrsdp, length_eMul, length_sAdd, length_sMul, length_fm_u h]

theorem length_fm_kd {p : FMInputs} (h : LenOk p) : (fm_kd p).length = p.num_bands := by
  simp [fm_kd, length_mulS, length_fm_kappa h]

theorem length_fm_kuc {p : FMInputs} (h : LenOk p) : (fm_kuc p).length = p.num_bands := by
  simp [fm_kuc, length_eMul, length_fm_kappa h, length_fm_du_column_scaled h]

theorem length_fm_kub {p : FMInputs} (h : LenOk p) : (fm_kub p).length = p.num_bands := by
  simp [fm_kub, length_eMul, length_fm_kappa h, length_fm_du_bottom_scaled h]

theorem length_fm_kappa_d {p : FMInputs} (h : LenOk p) :
    (fm_kappa_d p).length = p.num_bands := by
  simp [fm_kappa_d, length_mulS, length_fm_kappa h]

theorem length_fm_r_substratum {p : FMInputs} (h : LenOk p) :
    (fm_r_substratum p).length = p.num_bands := by
  obtain ⟨h1, h2, _, _, _⟩ := h
  unfold fm_r_substratum
  cases hs : p.substrate2 with
  | none => simpa using h1
  | some s2 =>
      have hs2 : s2.length = p.num_bands := h2 s2 hs
      simp [length_eAdd, length_sMul, h1, hs2]

theorem length_fm_rrs {p : FMInputs} (h : LenOk p) : (fm_rrs p).length = p.num_bands := by
  simp [fm_rrs, length_eAdd, length_eMul, length_sSub, length_expE, length_negE,
    length_sAdd, length_sMul, length_fm_rrsdp h, length_fm_du_column_scaled h,
    length_fm_du_bottom_scaled h, length_fm_kappa_d h, length_fm_r_substratum h]

/-! ## Per-band characterization of each pipeline stage -/

theorem band_fm_bbwater {p : FMInputs} {i : ℕ} (hw : i < p.wavelengths.length) :
    band (fm_bbwater p) i
      = (0.00194 / 2.0) * Real.rpow (p.bb_lambda_ref / band p.wavelengths i) 4.32 := by
  simp only [fm_bbwater, powE, band_sMul, band_map, List.length_map, hw]

theorem band_fm_acdom_star {p : FMInputs} {i : ℕ} (hw : i < p.wavelengths.length) :
    band (fm_acdom_star p) i
      = p.a_cdom_lambda0cdom
        * Real.exp (-p.slope_cdom * (band p.wavelengths i - p.lambda0cdom)) := by
  simp only [fm_acdom_star, expE, band_sMul, band_map, List.length_map, hw]

theorem band_fm_atr_star {p : FMInputs} {i : ℕ} (hw : i < p.wavelengths.length) :
    band (fm_atr_star p) i
      = p.a_nap_lambda0nap
        * Real.exp (-p.slope_nap * (band p.wavelengths i - p.lambda0nap)) := by
  simp only [fm_atr_star, expE, band_sMul, band_map, List.length_map, hw]

theorem band_fm_backscatter {p : FMInputs} {i : ℕ} (hw : i < p.wavelengths.length) :
    band (fm_backscatter p) i
      = Real.rpow (p.lambda0x / band p.wavelengths i) p.slope_backscatter := by
  simp only [fm_backscatter, powE, band_map, List.length_map, hw]

theorem band_fm_bbph_star {p : FMInputs} {i : ℕ} (hw : i < p.wavelengths.length) :
    band (fm_bbph_star p) i = p.x_ph_lambda0x * band (fm_backscatter p) i := by
  have hb : i < (fm_backscatter p).length := by rw [length_fm_backscatter]; exact hw
  simp only [fm_bbph_star, band_sMul hb]

theorem band_fm_bbtr_star {p : FMInputs} {i : ℕ} (hw : i < p.wavelengths.length) :
    band (fm_bbtr_star p) i = p.x_nap_lambda0x * band (fm_backscatter p) i := by
  have hb : i < (fm_backscatter p).length := by rw [length_fm_backscatter]; exact hw
  simp only [fm_bbtr_star, band_sMul hb]

theorem band_fm_a {p : FMInputs} {i : ℕ} (h : LenOk p) (hi : i < p.num_bands) :
    band (fm_a p) i
      = band p.awater i + p.chl * band p.aphy_star i
        + p.cdom * band (fm_acdom_star p) i + p.nap * band (fm_atr_star p) i := by
  obtain ⟨h1, h2, hw, ha, hp⟩ := h
  simp only [fm_a, band_eAdd, band_sMul, length_eAdd, length_sMul,
    length_fm_acdom_star, length_fm_atr_star, ha, hp, hw, hi, lt_min_iff, min_self,
    and_self]

theorem band_fm_bb {p : FMInputs} {i : ℕ} (h : LenOk p) (hi : i < p.num_bands) :
    band (fm_bb p) i
      = band (fm_bbwater p) i + p.chl * band (fm_bbph_star p) i
        + p.nap * band (fm_bbtr_star p) i := by
  obtain ⟨h1, h2, hw, ha, hp⟩ := h
  simp only [fm_bb, band_eAdd, band_sMul, length_eAdd, length_sMul,
    length_fm_bbwater, length_fm_bbph_star, length_fm_bbtr_star, hw, hi,
    lt_min_iff, min_self, and_self]

theorem band_fm_kappa {p : FMInputs} {i : ℕ} (h : LenOk p) (hi : i < p.num_bands) :
    band (fm_kappa p) i = band (fm_a p) i + band (fm_bb p) i := by
  have b1 : i < (fm_a p).length := by rw [length_fm_a h]; exact hi
  have b2 : i < (fm_bb p).length := by rw [length_fm_bb h]; exact hi
  simp only [fm_kappa, band_eAdd b1 b2]

theorem band_fm_u {p : FMInputs} {i : ℕ} (h : LenOk p) (hi : i < p.num_bands) :
    band (fm_u p) i = band (fm_bb p) i / band (fm_kappa p) i := by
  have b1 : i < (fm_bb p).length := by rw [length_fm_bb h]; exact hi
  have b2 : i < (fm_kappa p).length := by rw [length_fm_kappa h]; exact hi
  simp only [fm_u, band_eDiv b1 b2]

theorem band_fm_du_column {p : FMInputs} {i : ℕ} (h : LenOk p) (hi : i < p.num_bands) :
    band (fm_du_column p) i
      = 1.03 * Real.rpow (1.00 + 2.40 * band (fm_u p) i) 0.50 := by
  have b1 : i < (fm_u p).length := by rw [length_fm_u h]; exact hi
  simp only [fm_du_column, band_sMul, band_powE, band_sAdd, length_powE, length_sAdd,
    length_sMul, b1]

theorem band_fm_du_bottom {p : FMInputs} {i : ℕ} (h : LenOk p) (hi : i < p.num_bands) :
    band (fm_du_bottom p) i
      = 1.04 * Real.rpow (1.00 + 5.40 * band (fm_u p) i) 0.50 := by
  have b1 : i < (fm_u p).length := by rw [length_fm_u h]; exact hi
  simp only [fm_du_bottom, band_sMul, band_powE, band_sAdd, length_powE, length_sAdd,
    length_sMul, b1]

theorem band_fm_rrsdp {p : FMInputs} {i : ℕ} (h : LenOk p) (hi : i < p.num_bands) :
    band (fm_rrsdp p) i = (0.084 + 0.17 * band (fm_u p) i) * band (fm_u p) i := by
  have b1 : i < (fm_u p).length := by rw [length_fm_u h]; exact hi
  simp only [fm_rrsdp, band_eMul, band_sAdd, band_sMul, length_sAdd, length_sMul, b1]

theorem band_fm_du_column_scaled {p : FMInputs} {i : ℕ}
    (h : LenOk p) (hi : i < p.num_bands) :
    band (fm_du_column_scaled p) i = band (fm_du_column p) i * fm_inv_cos_theta0 p := by
  have b1 : i < (fm_du_column p).length := by rw [length_fm_du_column h]; exact hi
  simp only [fm_du_column_scaled, band_mulS b1]

theorem band_fm_du_bottom_scaled {p : FMInputs} {i : ℕ}
    (h : LenOk p) (hi : i < p.num_bands) :
    band (fm_du_bottom_scaled p) i = band (fm_du_bottom p) i * fm_inv_cos_theta0 p := by
  have b1 : i < (fm_du_bottom p).length := by rw [length_fm_du_bottom h]; exact hi
  simp only [fm_du_bottom_scaled, band_mulS b1]

theorem band_fm_kd {p : FMInputs} {i : ℕ} (h : LenOk p) (hi : i < p.num_bands) :
    band (fm_kd p) i = band (fm_kappa p) i * fm_inv_cos_thetaw p := by
  have b1 : i < (fm_kappa p).length := by rw [length_fm_kappa h]; exact hi
  simp only [fm_kd, band_mulS b1]

theorem band_fm_kuc {p : FMInputs} {i : ℕ} (h : LenOk p) (hi : i < p.num_bands) :
    band (fm_kuc p) i = band (fm_kappa p) i * band (fm_du_column_scaled p) i := by
  have b1 : i < (fm_kappa p).length := by rw [length_fm_kappa h]; exact hi
  have b2 : i < (fm_du_column_scaled p).length := by
    rw [length_fm_du_column_scaled h]; exact hi
  simp only [fm_kuc, band_eMul b1 b2]

theorem band_fm_kub {p : FMInputs} {i : ℕ} (h : LenOk p) (hi : i < p.num_bands) :
    band (fm_kub p) i = band (fm_kappa p) i * band (fm_du_bottom_scaled p) i := by
  have b1 : i < (fm_kappa p).length := by rw [length_fm_kappa h]; exact hi
  have b2 : i < (fm_du_bottom_scaled p).length := by
    rw [length_fm_du_bottom_scaled h]; exact hi
  simp only [fm_kub, band_eMul b1 b2]

theorem band_fm_kappa_d {p : FMInputs} {i : ℕ} (h : LenOk p) (hi : i < p.num_bands) :
    band (fm_kappa_d p) i = band (fm_kappa p) i * p.depth := by
  have b1 : i < (fm_kappa p).length := by rw [length_fm_kappa h]; exact hi
  simp only [fm_kappa_d, band_mulS b1]

theorem fm_r_substratum_none {p : FMInputs} (hs : p.substrate2 = none) :
    fm_r_substratum p = p.substrate1 := by
  simp [fm_r_substratum, hs]

theorem band_fm_r_substratum_some {p : FMInputs} {s2 : List ℝ} {i : ℕ}
    (hs : p.substrate2 = some s2)
    (h1 : i < p.substrate1.length) (h2 : i < s2.length) :
    band (fm_r_substratum p) i
      = p.substrate_fraction * band p.substrate1 i
        + (1.0 - p.substrate_fraction) * band s2 i := by
  simp only [fm_r_substratum, hs, band_eAdd, band_sMul, length_sMul, h1, h2,
    lt_min_iff, and_self]

theorem band_fm_rrs {p : FMInputs} {i : ℕ} (h : LenOk p) (hi : i < p.num_bands) :
    band (fm_rrs p) i
      = band (fm_rrsdp p) i
          * (1.0 - Real.exp (-(fm_inv_cos_thetaw p + band (fm_du_column_scaled p) i)
              * band (fm_kappa_d p) i))
        + (1.0 / Real.pi) * band (fm_r_substratum p) i
          * Real.exp (-(fm_inv_cos_thetaw p + band (fm_du_bottom_scaled p) i)
              * band (fm_kappa_d p) i) := by
  have b1 : i < (fm_rrsdp p).length := by rw [length_fm_rrsdp h]; exact hi
  have b2 : i < (fm_du_column_scaled p).length := by
    rw [length_fm_du_column_scaled h]; exact hi
  have b3 : i < (fm_du_bottom_scaled p).length := by
    rw [length_fm_du_bottom_scaled h]; exact hi
  have b4 : i < (fm_kappa_d p).length := by rw [length_fm_kappa_d h]; exact hi
  have b5 : i < (fm_r_substratum p).length := by rw [length_fm_r_substratum h]; exact hi
  simp only [fm_rrs, band_eAdd, band_eMul, band_sSub, band_expE, band_negE, band_sAdd,
    band_sMul, length_eMul, length_sSub, length_expE, length_negE, length_sAdd,
    length_sMul, length_eAdd, b1, b2, b3, b4, b5, lt_min_iff, and_self,
    length_fm_rrsdp h, length_fm_du_column_scaled h, length_fm_du_bottom_scaled h,
    length_fm_kappa_d h, length_fm_r_substratum h, hi]

/-! ## Bridge: forward_model on shape-valid inputs -/

theorem forward_model_some {p : FMInputs} (h : shape_ok p = true) :
    forward_model p = some (forward_model_unchecked p) := by
  simp [forward_model, h]

theorem forward_model_none {p : FMInputs} (h : shape_ok p = false) :
    forward_model p = none := by
  simp [forward_model, h]

/-! ## The sensor filter (src/sambuca_core/sensor_filter.py) -/

/-- Inner product of two equal-length arrays, as used by `np.dot` row-by-row. -/
def dotv (xs ys : List ℝ) : ℝ := (List.zipWith (fun x y => x * y) xs ys).sum

/-- Source: `np.dot(matrix, vector)`: one inner product per matrix row. -/
def matVec (m : List (List ℝ)) (v : List ℝ) : List ℝ := m.map (fun row => dotv row v)

/-- Source: `matrix.sum(1)`: per-row totals of the response matrix. -/
def rowSums (m : List (List ℝ)) : List ℝ := m.map (fun row => row.sum)

/-- Source: `apply_sensor_filter(spectra, normalised_response_function)` (lines 23-43):
`np.dot(normalised_response_function, spectra) / normalised_response_function.sum(1)`. -/
def apply_sensor_filter (spectra : List ℝ) (normalised_response_function : List (List ℝ)) :
    List ℝ :=
  eDiv (matVec normalised_response_function spectra) (rowSums normalised_response_function)

theorem band_map_rows {α : Type} (f : α → ℝ) (m : List α) {j : ℕ} (hj : j < m.length) :
    band (m.map f) j = f (m.get ⟨j, hj⟩) := by
  have h2 : j < (m.map f).length := by simp [hj]
  rw [band_of_lt h2]
  simp

/-! ## Concrete one-band inputs used by the witnesses -/

/-- A concrete valid one-band input (dual substrate). -/
def p0 : FMInputs :=
  ⟨0, 0, 0, 0, [1/2], [550], [1/25], [1], 1, 1, some [3/10],
   0, 0, 1, 550, 550, 546, 1/100, 2/100, 1, 1/200, 550, 4/3, 30, 0⟩

/-- A concrete valid one-band input (single substrate). -/
def p1 : FMInputs :=
  ⟨0, 0, 0, 0, [1/2], [550], [1/25], [1], 1, 1, none,
   0, 0, 1, 550, 550, 546, 1/100, 2/100, 1, 1/200, 550, 4/3, 30, 0⟩

/-- A concrete valid one-band input agreeing with `p0` on everything except
depth, substrates and the substrate fraction. -/
def q0 : FMInputs :=
  ⟨0, 0, 0, 7, [9/10], [550], [1/25], [1], 1, 1/3, none,
   0, 0, 1, 550, 550, 546, 1/100, 2/100, 1, 1/200, 550, 4/3, 30, 0⟩

/-- A concrete input with valid one-band shapes but water_refractive_index = 0,
on which the source raises ZeroDivisionError at line 124. -/
def p2 : FMInputs :=
  ⟨0, 0, 0, 0, [1/2], [550], [1/25], [1], 1, 1, none,
   0, 0, 1, 550, 550, 546, 1/100, 2/100, 1, 1/200, 550, 0, 30, 0⟩

/-! ## Claim theorems -/

/-- C3: for every valid call of forward_model the returned total absorption is,
per band, awater + chl·aphy_star + cdom·acdom_star + nap·atr_star with the
exponential-decay specific absorptions, and the returned total backscatter is
bbwater + chl·bbph_star + nap·bbtr_star — with no cdom term. -/
theorem C3_total_absorption_backscatter (p : FMInputs) (i : ℕ)
    (h : shape_ok p = true) (hi : i < p.num_bands) :
    ∃ res : ForwardModelResults, forward_model p = some res ∧
      (band res.a i
        = band p.awater i + p.chl * band p.aphy_star i
          + p.cdom * (p.a_cdom_lambda0cdom
              * Real.exp (-p.slope_cdom * (band p.wavelengths i - p.lambda0cdom)))
          + p.nap * (p.a_nap_lambda0nap
              * Real.exp (-p.slope_nap * (band p.wavelengths i - p.lambda0nap))))
      ∧ band res.bb i
        = (0.00194 / 2.0) * Real.rpow (p.bb_lambda_ref / band p.wavelengths i) 4.32
          + p.chl * (p.x_ph_lambda0x
              * Real.rpow (p.lambda0x / band p.wavelengths i) p.slope_backscatter)
          + p.nap * (p.x_nap_lambda0x
              * Real.rpow (p.lambda0x / band p.wavelengths i) p.slope_backscatter) := by
  have hl := shape_ok_iff.mp h
  have hw : i < p.wavelengths.length := by rw [hl.2.2.1]; exact hi
  refine ⟨forward_model_unchecked p, forward_model_some h, ?_, ?_⟩
  · show band (fm_a p) i = _
    rw [band_fm_a hl hi, band_fm_acdom_star hw, band_fm_atr_star hw]
  · show band (fm_bb p) i = _
    rw [band_fm_bb hl hi, band_fm_bbwater hw, band_fm_bbph_star hw,
      band_fm_bbtr_star hw, band_fm_backscatter hw]

/-- Witness for C3 at the concrete input `p0`, band 0. -/
theorem C3_witness :
    ∃ res : ForwardModelResults, forward_model p0 = some res ∧
      (band res.a 0
        = band p0.awater 0 + p0.chl * band p0.aphy_star 0
          + p0.cdom * (p0.a_cdom_lambda0cdom
              * Real.exp (-p0.slope_cdom * (band p0.wavelengths 0 - p0.lambda0cdom)))
          + p0.nap * (p0.a_nap_lambda0nap
              * Real.exp (-p0.slope_nap * (band p0.wavelengths 0 - p0.lambda0nap))))
      ∧ band res.bb 0
        = (0.00194 / 2.0) * Real.rpow (p0.bb_lambda_ref / band p0.wavelengths 0) 4.32
          + p0.chl * (p0.x_ph_lambda0x
              * Real.rpow (p0.lambda0x / band p0.wavelengths 0) p0.slope_backscatter)
          + p0.nap * (p0.x_nap_lambda0x
              * Real.rpow (p0.lambda0x / band p0.wavelengths 0) p0.slope_backscatter) :=
  C3_total_absorption_backscatter p0 0 (by decide) (by decide)

/-- C5: with substrate2 = None the returned combined substrate is exactly
substrate1, whatever the substrate_fraction. -/
theorem C5_single_substrate (p : FMInputs)
    (h : shape_ok p = true) (hs : p.substrate2 = none) :
    ∃ res : ForwardModelResults, forward_model p = some res ∧
      res.r_substratum = p.substrate1 := by
  refine ⟨forward_model_unchecked p, forward_model_some h, ?_⟩
  show fm_r_substratum p = p.substrate1
  exact fm_r_substratum_none hs

/-- Witness for C5 at the concrete input `p1`. -/
theorem C5_witness :
    ∃ res : ForwardModelResults, forward_model p1 = some res ∧
      res.r_substratum = p1.substrate1 :=
  C5_single_substrate p1 (by decide) rfl

/-- C6: with substrate2 supplied the returned combined substrate is the convex
combination substrate_fraction·substrate1 + (1−substrate_fraction)·substrate2
per band; at fraction 1 it is substrate1 and at fraction 0 it is substrate2. -/
theorem C6_convex_combination (p : FMInputs) (s2 : List ℝ) (i : ℕ)
    (h : shape_ok p = true) (hs : p.substrate2 = some s2) (hi : i < p.num_bands) :
    ∃ res : ForwardModelResults, forward_model p = some res ∧
      (band res.r_substratum i
        = p.substrate_fraction * band p.substrate1 i
          + (1 - p.substrate_fraction) * band s2 i) ∧
      (p.substrate_fraction = 1 → band res.r_substratum i = band p.substrate1 i) ∧
      (p.substrate_fraction = 0 → band res.r_substratum i = band s2 i) := by
  have hl := shape_ok_iff.mp h
  have h1 : i < p.substrate1.length := by rw [hl.1]; exact hi
  have h2 : i < s2.length := by rw [hl.2.1 s2 hs]; exact hi
  refine ⟨forward_model_unchecked p, forward_model_some h, ?_, ?_, ?_⟩
  · show band (fm_r_substratum p) i = _
    rw [band_fm_r_substratum_some hs h1 h2]
    norm_num
  · intro hf
    show band (fm_r_substratum p) i = _
    rw [band_fm_r_substratum_some hs h1 h2, hf]
    ring
  · intro hf
    show band (fm_r_substratum p) i = _
    rw [band_fm_r_substratum_some hs h1 h2, hf]
    ring

/-- Witness for C6 at the concrete input `p0`, band 0. -/
theorem C6_witness :
    ∃ res : ForwardModelResults, forward_model p0 = some res ∧
      (band res.r_substratum 0
        = p0.substrate_fraction * band p0.substrate1 0
          + (1 - p0.substrate_fraction) * band ([3/10] : List ℝ) 0) ∧
      (p0.substrate_fraction = 1 → band res.r_substratum 0 = band p0.substrate1 0) ∧
      (p0.substrate_fraction = 0 → band res.r_substratum 0 = band ([3/10] : List ℝ) 0) :=
  C6_convex_combination p0 [3/10] 0 (by decide) rfl (by decide)

/-- C8: at depth = 0 the returned rrs equals (1/π)·r_substratum at every band. -/
theorem C8_zero_depth (p : FMInputs) (i : ℕ)
    (h : shape_ok p = true) (hd : p.depth = 0) (hi : i < p.num_bands) :
    ∃ res : ForwardModelResults, forward_model p = some res ∧
      band res.rrs i = (1 / Real.pi) * band res.r_substratum i := by
  have hl := shape_ok_iff.mp h
  refine ⟨forward_model_unchecked p, forward_model_some h, ?_⟩
  show band (fm_rrs p) i = (1 / Real.pi) * band (fm_r_substratum p) i
  rw [band_fm_rrs hl hi, band_fm_kappa_d hl hi, hd]
  simp only [mul_zero, Real.exp_zero]
  ring

/-- Witness for C8 at the concrete input `p0` (which has depth 0), band 0. -/
theorem C8_witness :
    ∃ res : ForwardModelResults, forward_model p0 = some res ∧
      band res.rrs 0 = (1 / Real.pi) * band res.r_substratum 0 :=
  C8_zero_depth p0 0 (by decide) rfl (by decide)

/-- The shape-mismatch condition, equivalent to the failure of the `assert`
guards. -/
theorem shape_mismatch_iff {p : FMInputs} :
    (p.substrate1.length ≠ p.num_bands ∨
     (∃ s2, p.substrate2 = some s2 ∧ s2.length ≠ p.num_bands) ∨
     p.wavelengths.length ≠ p.num_bands ∨
     p.awater.length ≠ p.num_bands ∨
     p.aphy_star.length ≠ p.num_bands) ↔ ¬ LenOk p := by
  unfold LenOk
  cases hs : p.substrate2 with
  | none =>
      simp [hs]
      tauto
  | some s2 =>
      simp [hs]
      tauto

/-- Refinement: whenever the raise-level view returns a record, the value-level
view returns the same record. -/
theorem forward_model_py_ok {p : FMInputs} {r : ForwardModelResults}
    (h : forward_model_py p = Except.ok r) : forward_model p = some r := by
  unfold forward_model_py at h
  by_cases hs : shape_ok p = true
  · rw [if_pos hs] at h
    split_ifs at h with h0 h1 h2
    all_goals try exact absurd h (fun hc => Except.noConfusion hc)
    injection h with hr
    subst hr
    exact forward_model_some hs
  · rw [if_neg hs] at h
    exact absurd h (fun hc => Except.noConfusion hc)

/-- C2 (amended): forward_model raises if and only if either some per-band
input sequence length differs from num_bands, or — with all shapes valid — the
scalar angle setup fails: water_refractive_index = 0 (ZeroDivisionError,
line 124) or a Snell ratio |sin(angle in radians)/water_refractive_index|
exceeds 1 (ValueError from math.asin, lines 125 and 128).  The shape check
still runs first, before any computation; in every other case the call returns
the complete eight-field result record. -/
theorem C2_raise_characterization (p : FMInputs) :
    ((∃ e, forward_model_py p = Except.error e) ↔
      ((p.substrate1.length ≠ p.num_bands ∨
        (∃ s2, p.substrate2 = some s2 ∧ s2.length ≠ p.num_bands) ∨
        p.wavelengths.length ≠ p.num_bands ∨
        p.awater.length ≠ p.num_bands ∨
        p.aphy_star.length ≠ p.num_bands) ∨
       (p.water_refractive_index = 0 ∨
        1 < |Real.sin (radians p.theta_air) / p.water_refractive_index| ∨
        1 < |Real.sin (radians p.off_nadir) / p.water_refractive_index|))) ∧
    ((p.substrate1.length ≠ p.num_bands ∨
      (∃ s2, p.substrate2 = some s2 ∧ s2.length ≠ p.num_bands) ∨
      p.wavelengths.length ≠ p.num_bands ∨
      p.awater.length ≠ p.num_bands ∨
      p.aphy_star.length ≠ p.num_bands) →
      forward_model_py p = Except.error PyErr.assertionError) ∧
    (¬ (p.substrate1.length ≠ p.num_bands ∨
        (∃ s2, p.substrate2 = some s2 ∧ s2.length ≠ p.num_bands) ∨
        p.wavelengths.length ≠ p.num_bands ∨
        p.awater.length ≠ p.num_bands ∨
        p.aphy_star.length ≠ p.num_bands) →
      ¬ (p.water_refractive_index = 0 ∨
         1 < |Real.sin (radians p.theta_air) / p.water_refractive_index| ∨
         1 < |Real.sin (radians p.off_nadir) / p.water_refractive_index|) →
      forward_model_py p = Except.ok (forward_model_unchecked p)) := by
  have hdiv1 : fm_inv_refractive_index p * Real.sin (radians p.theta_air)
      = Real.sin (radians p.theta_air) / p.water_refractive_index := by
    unfold fm_inv_refractive_index
    ring
  have hdiv2 : fm_inv_refractive_index p * Real.sin (radians p.off_nadir)
      = Real.sin (radians p.off_nadir) / p.water_refractive_index := by
    unfold fm_inv_refractive_index
    ring
  by_cases hs : shape_ok p = true
  · have hnM : ¬ (p.substrate1.length ≠ p.num_bands ∨
        (∃ s2, p.substrate2 = some s2 ∧ s2.length ≠ p.num_bands) ∨
        p.wavelengths.length ≠ p.num_bands ∨
        p.awater.length ≠ p.num_bands ∨
        p.aphy_star.length ≠ p.num_bands) := by
      rw [shape_mismatch_iff]
      exact not_not_intro (shape_ok_iff.mp hs)
    refine ⟨?_, fun hM => absurd hM hnM, fun _ hB => ?_⟩
    · unfold forward_model_py
      rw [if_pos hs]
      simp only [hdiv1, hdiv2]
      by_cases h0 : p.water_refractive_index = 0
      · rw [if_pos h0]
        simp [h0]
      · rw [if_neg h0]
        by_cases h1 : 1 < |Real.sin (radians p.theta_air) / p.water_refractive_index|
        · rw [if_pos h1]
          simp [h1]
        · rw [if_neg h1]
          by_cases h2 : 1 < |Real.sin (radians p.off_nadir) / p.water_refractive_index|
          · rw [if_pos h2]
            simp [h2]
          · rw [if_neg h2]
            simp [hnM, h0, h1, h2]
    · push_neg at hB
      have hb1 : ¬ 1 < |Real.sin (radians p.theta_air) / p.water_refractive_index| :=
        not_lt.mpr hB.2.1
      have hb2 : ¬ 1 < |Real.sin (radians p.off_nadir) / p.water_refractive_index| :=
        not_lt.mpr hB.2.2
      unfold forward_model_py
      rw [if_pos hs]
      simp only [hdiv1, hdiv2]
      rw [if_neg hB.1, if_neg hb1, if_neg hb2]
  · have hM : p.substrate1.length ≠ p.num_bands ∨
        (∃ s2, p.substrate2 = some s2 ∧ s2.length ≠ p.num_bands) ∨
        p.wavelengths.length ≠ p.num_bands ∨
        p.awater.length ≠ p.num_bands ∨
        p.aphy_star.length ≠ p.num_bands := by
      rw [shape_mismatch_iff]
      intro hL
      exact hs (shape_ok_iff.mpr hL)
    have hfm : forward_model_py p = Except.error PyErr.assertionError := by
      unfold forward_model_py
      rw [if_neg hs]
    refine ⟨⟨fun _ => Or.inl hM, fun _ => ⟨PyErr.assertionError, hfm⟩⟩,
      fun _ => hfm, fun hnM _ => absurd hM hnM⟩

/-- Counterexample to C2 as stated: at `p2` every per-band input has length
num_bands, yet the call raises (ZeroDivisionError from
`1.0 / water_refractive_index` at line 124), so "raises only on shape
mismatch" is false of the program. -/
theorem C2_counterexample :
    p2.substrate1.length = p2.num_bands ∧
    (∀ s2, p2.substrate2 = some s2 → s2.length = p2.num_bands) ∧
    p2.wavelengths.length = p2.num_bands ∧
    p2.awater.length = p2.num_bands ∧
    p2.aphy_star.length = p2.num_bands ∧
    forward_model_py p2 = Except.error PyErr.zeroDivisionError := by
  refine ⟨by decide, ?_, by decide, by decide, by decide, ?_⟩
  · intro s2 hs2
    exact Option.noConfusion hs2
  · unfold forward_model_py
    rw [if_pos (by decide)]
    rw [if_pos (show p2.water_refractive_index = 0 from rfl)]

/-- C10: two valid calls agreeing on the concentrations, the spectral inputs
and all SIOP scalar parameters, but differing arbitrarily in depth, substrates
and substrate fraction, return identical total absorption and backscatter. -/
theorem C10_ab_independent_of_depth_substrate (p q : FMInputs)
    (hp : shape_ok p = true) (hq : shape_ok q = true)
    (h1 : q.chl = p.chl) (h2 : q.cdom = p.cdom) (h3 : q.nap = p.nap)
    (h4 : q.wavelengths = p.wavelengths) (h5 : q.awater = p.awater)
    (h6 : q.aphy_star = p.aphy_star)
    (h7 : q.slope_cdom = p.slope_cdom) (h8 : q.slope_nap = p.slope_nap)
    (h9 : q.slope_backscatter = p.slope_backscatter)
    (h10 : q.lambda0cdom = p.lambda0cdom) (h11 : q.lambda0nap = p.lambda0nap)
    (h12 : q.lambda0x = p.lambda0x)
    (h13 : q.x_ph_lambda0x = p.x_ph_lambda0x)
    (h14 : q.x_nap_lambda0x = p.x_nap_lambda0x)
    (h15 : q.a_cdom_lambda0cdom = p.a_cdom_lambda0cdom)
    (h16 : q.a_nap_lambda0nap = p.a_nap_lambda0nap)
    (h17 : q.bb_lambda_ref = p.bb_lambda_ref)
    (h18 : q.water_refractive_index = p.water_refractive_index)
    (h19 : q.theta_air = p.theta_air) (h20 : q.off_nadir = p.off_nadir)
    (h21 : q.num_bands = p.num_bands) :
    ∃ res1 res2 : ForwardModelResults,
      forward_model p = some res1 ∧ forward_model q = some res2 ∧
      res1.a = res2.a ∧ res1.bb = res2.bb := by
  refine ⟨forward_model_unchecked p, forward_model_unchecked q,
    forward_model_some hp, forward_model_some hq, ?_, ?_⟩
  · show fm_a p = fm_a q
    unfold fm_a fm_acdom_star fm_atr_star
    rw [h1, h2, h3, h4, h5, h6, h7, h8, h10, h11, h15, h16]
  · show fm_bb p = fm_bb q
    unfold fm_bb fm_bbwater fm_bbph_star fm_bbtr_star fm_backscatter
    rw [h1, h3, h4, h9, h12, h13, h14, h17]

/-- Witness for C10 at the concrete inputs `p0` and `q0`, which differ in
depth, substrate1, substrate_fraction and substrate2. -/
theorem C10_witness :
    ∃ res1 res2 : ForwardModelResults,
      forward_model p0 = some res1 ∧ forward_model q0 = some res2 ∧
      res1.a = res2.a ∧ res1.bb = res2.bb :=
  C10_ab_independent_of_depth_substrate p0 q0 (by decide) (by decide)
    rfl rfl rfl rfl rfl rfl rfl rfl rfl rfl rfl rfl rfl rfl rfl rfl rfl rfl rfl rfl rfl

/-- C9: the sensor filter returns, for each output row, the weighted sum of the
input bands with that row's weights divided by the row's weight total. -/
theorem C9_sensor_filter_weighted_average (spectra : List ℝ) (nrf : List (List ℝ))
    (j : ℕ)
    (hdim : ∀ row ∈ nrf, row.length = spectra.length)
    (hnz : ∀ row ∈ nrf, row.sum ≠ 0)
    (hj : j < nrf.length) :
    band (apply_sensor_filter spectra nrf) j
      = (List.zipWith (fun w x => w * x) (nrf.get ⟨j, hj⟩) spectra).sum
        / (nrf.get ⟨j, hj⟩).sum := by
  have hm : j < (matVec nrf spectra).length := by simp [matVec, hj]
  have hr : j < (rowSums nrf).length := by simp [rowSums, hj]
  rw [apply_sensor_filter, band_eDiv hm hr]
  rw [matVec, band_map_rows (fun row => dotv row spectra) nrf hj,
      rowSums, band_map_rows (fun row => row.sum) nrf hj]
  rfl

/-- Witness for C9 at the concrete spectra [2] and response matrix [[1]]. -/
theorem C9_witness :
    band (apply_sensor_filter [(2 : ℝ)] [[(1 : ℝ)]]) 0
      = (List.zipWith (fun w x => w * x)
          (([[(1 : ℝ)]] : List (List ℝ)).get ⟨0, by decide⟩) [(2 : ℝ)]).sum
        / (([[(1 : ℝ)]] : List (List ℝ)).get ⟨0, by decide⟩).sum :=
  C9_sensor_filter_weighted_average [(2 : ℝ)] [[(1 : ℝ)]] 0
    (by decide)
    (by
      intro row hrow
      rw [List.mem_singleton] at hrow
      subst hrow
      simp)
    (by decide)

/-- C4: the returned attenuation coefficients satisfy kd = kappa/cos(θw),
kuc = kappa·du_column/cos(θ0), kub = kappa·du_bottom/cos(θ0) with kappa = a+bb
and θw, θ0 the Snell-refracted sub-surface angles of theta_air and off_nadir. -/
theorem C4_attenuation_coefficients (p : FMInputs) (i : ℕ)
    (h : shape_ok p = true) (hi : i < p.num_bands) :
    ∃ res : ForwardModelResults, forward_model p = some res ∧
      (band res.kd i
        = (band res.a i + band res.bb i)
          / Real.cos (Real.arcsin
              (Real.sin (radians p.theta_air) / p.water_refractive_index))) ∧
      (band res.kuc i
        = (band res.a i + band res.bb i)
          * (1.03 * Real.rpow (1.00 + 2.40
              * (band res.bb i / (band res.a i + band res.bb i))) 0.50)
          / Real.cos (Real.arcsin
              (Real.sin (radians p.off_nadir) / p.water_refractive_index))) ∧
      (band res.kub i
        = (band res.a i + band res.bb i)
          * (1.04 * Real.rpow (1.00 + 5.40
              * (band res.bb i / (band res.a i + band res.bb i))) 0.50)
          / Real.cos (Real.arcsin
              (Real.sin (radians p.off_nadir) / p.water_refractive_index))) := by
  have hl := shape_ok_iff.mp h
  have hw_eq : fm_thetaw p
      = Real.arcsin (Real.sin (radians p.theta_air) / p.water_refractive_index) := by
    unfold fm_thetaw fm_inv_refractive_index
    congr 1
    ring
  have ho_eq : fm_thetao p
      = Real.arcsin (Real.sin (radians p.off_nadir) / p.water_refractive_index) := by
    unfold fm_thetao fm_inv_refractive_index
    congr 1
    ring
  refine ⟨forward_model_unchecked p, forward_model_some h, ?_, ?_, ?_⟩
  · show band (fm_kd p) i
      = (band (fm_a p) i + band (fm_bb p) i)
        / Real.cos (Real.arcsin
            (Real.sin (radians p.theta_air) / p.water_refractive_index))
    rw [band_fm_kd hl hi, band_fm_kappa hl hi]
    simp only [fm_inv_cos_thetaw]
    rw [hw_eq]
    ring
  · show band (fm_kuc p) i
      = (band (fm_a p) i + band (fm_bb p) i)
        * (1.03 * Real.rpow (1.00 + 2.40
            * (band (fm_bb p) i / (band (fm_a p) i + band (fm_bb p) i))) 0.50)
        / Real.cos (Real.arcsin
            (Real.sin (radians p.off_nadir) / p.water_refractive_index))
    rw [band_fm_kuc hl hi, band_fm_du_column_scaled hl hi, band_fm_du_column hl hi,
      band_fm_u hl hi, band_fm_kappa hl hi]
    simp only [fm_inv_cos_theta0]
    rw [ho_eq]
    ring
  · show band (fm_kub p) i
      = (band (fm_a p) i + band (fm_bb p) i)
        * (1.04 * Real.rpow (1.00 + 5.40
            * (band (fm_bb p) i / (band (fm_a p) i + band (fm_bb p) i))) 0.50)
        / Real.cos (Real.arcsin
            (Real.sin (radians p.off_nadir) / p.water_refractive_index))
    rw [band_fm_kub hl hi, band_fm_du_bottom_scaled hl hi, band_fm_du_bottom hl hi,
      band_fm_u hl hi, band_fm_kappa hl hi]
    simp only [fm_inv_cos_theta0]
    rw [ho_eq]
    ring

/-- Witness for C4 at the concrete input `p0`, band 0. -/
theorem C4_witness :
    ∃ res : ForwardModelResults, forward_model p0 = some res ∧
      (band res.kd 0
        = (band res.a 0 + band res.bb 0)
          / Real.cos (Real.arcsin
              (Real.sin (radians p0.theta_air) / p0.water_refractive_index))) ∧
      (band res.kuc 0
        = (band res.a 0 + band res.bb 0)
          * (1.03 * Real.rpow (1.00 + 2.40
              * (band res.bb 0 / (band res.a 0 + band res.bb 0))) 0.50)
          / Real.cos (Real.arcsin
              (Real.sin (radians p0.off_nadir) / p0.water_refractive_index))) ∧
      (band res.kub 0
        = (band res.a 0 + band res.bb 0)
          * (1.04 * Real.rpow (1.00 + 5.40
              * (band res.bb 0 / (band res.a 0 + band res.bb 0))) 0.50)
          / Real.cos (Real.arcsin
              (Real.sin (radians p0.off_nadir) / p0.water_refractive_index))) :=
  C4_attenuation_coefficients p0 0 (by decide) (by decide)

/-- C1: the returned modelled reflectance is the two-term Lee model
rrs = rrsdp·(1 − exp(−(1/cos θw + du_column/cos θ0)·kappa·depth))
    + (1/π)·r_substratum·exp(−(1/cos θw + du_bottom/cos θ0)·kappa·depth)
with rrsdp = (0.084 + 0.17·u)·u, u = bb/(a+bb), kappa = a+bb,
du_column = 1.03·(1+2.40·u)^0.5, du_bottom = 1.04·(1+5.40·u)^0.5 and θw, θ0
the refracted sub-surface angles. -/
theorem C1_rrs_two_term_model (p : FMInputs) (i : ℕ)
    (h : shape_ok p = true) (hi : i < p.num_bands) :
    ∃ res : ForwardModelResults, forward_model p = some res ∧
      (band res.rrs i
        = (0.084 + 0.17 * (band res.bb i / (band res.a i + band res.bb i)))
            * (band res.bb i / (band res.a i + band res.bb i))
            * (1 - Real.exp (-(1 / Real.cos (Real.arcsin
                  (Real.sin (radians p.theta_air) / p.water_refractive_index))
                + 1.03 * Real.rpow (1.00 + 2.40
                    * (band res.bb i / (band res.a i + band res.bb i))) 0.50
                  / Real.cos (Real.arcsin
                    (Real.sin (radians p.off_nadir) / p.water_refractive_index)))
                * (band res.a i + band res.bb i) * p.depth))
          + (1 / Real.pi) * band res.r_substratum i
            * Real.exp (-(1 / Real.cos (Real.arcsin
                  (Real.sin (radians p.theta_air) / p.water_refractive_index))
                + 1.04 * Real.rpow (1.00 + 5.40
                    * (band res.bb i / (band res.a i + band res.bb i))) 0.50
                  / Real.cos (Real.arcsin
                    (Real.sin (radians p.off_nadir) / p.water_refractive_index)))
                * (band res.a i + band res.bb i) * p.depth)) ∧
      band res.rrsdp i
        = (0.084 + 0.17 * (band res.bb i / (band res.a i + band res.bb i)))
            * (band res.bb i / (band res.a i + band res.bb i)) := by
  have hl := shape_ok_iff.mp h
  have hw_eq : fm_thetaw p
      = Real.arcsin (Real.sin (radians p.theta_air) / p.water_refractive_index) := by
    unfold fm_thetaw fm_inv_refractive_index
    congr 1
    ring
  have ho_eq : fm_thetao p
      = Real.arcsin (Real.sin (radians p.off_nadir) / p.water_refractive_index) := by
    unfold fm_thetao fm_inv_refractive_index
    congr 1
    ring
  refine ⟨forward_model_unchecked p, forward_model_some h, ?_, ?_⟩
  · show band (fm_rrs p) i = _
    dsimp only [forward_model_unchecked]
    rw [band_fm_rrs hl hi, band_fm_rrsdp hl hi, band_fm_du_column_scaled hl hi,
      band_fm_du_bottom_scaled hl hi, band_fm_du_column hl hi, band_fm_du_bottom hl hi,
      band_fm_kappa_d hl hi, band_fm_u hl hi, band_fm_kappa hl hi]
    simp only [fm_inv_cos_thetaw, fm_inv_cos_theta0]
    rw [hw_eq, ho_eq]
    ring_nf
  · show band (fm_rrsdp p) i = _
    dsimp only [forward_model_unchecked]
    rw [band_fm_rrsdp hl hi, band_fm_u hl hi, band_fm_kappa hl hi]

/-- Witness for C1 at the concrete input `p0`, band 0. -/
theorem C1_witness :
    ∃ res : ForwardModelResults, forward_model p0 = some res ∧
      (band res.rrs 0
        = (0.084 + 0.17 * (band res.bb 0 / (band res.a 0 + band res.bb 0)))
            * (band res.bb 0 / (band res.a 0 + band res.bb 0))
            * (1 - Real.exp (-(1 / Real.cos (Real.arcsin
                  (Real.sin (radians p0.theta_air) / p0.water_refractive_index))
                + 1.03 * Real.rpow (1.00 + 2.40
                    * (band res.bb 0 / (band res.a 0 + band res.bb 0))) 0.50
                  / Real.cos (Real.arcsin
                    (Real.sin (radians p0.off_nadir) / p0.water_refractive_index)))
                * (band res.a 0 + band res.bb 0) * p0.depth))
          + (1 / Real.pi) * band res.r_substratum 0
            * Real.exp (-(1 / Real.cos (Real.arcsin
                  (Real.sin (radians p0.theta_air) / p0.water_refractive_index))
                + 1.04 * Real.rpow (1.00 + 5.40
                    * (band res.bb 0 / (band res.a 0 + band res.bb 0))) 0.50
                  / Real.cos (Real.arcsin
                    (Real.sin (radians p0.off_nadir) / p0.water_refractive_index)))
                * (band res.a 0 + band res.bb 0) * p0.depth)) ∧
      band res.rrsdp 0
        = (0.084 + 0.17 * (band res.bb 0 / (band res.a 0 + band res.bb 0)))
            * (band res.bb 0 / (band res.a 0 + band res.bb 0)) :=
  C1_rrs_two_term_model p0 0 (by decide) (by decide)

/-- C7: raising exactly one of chl, cdom or nap from zero to a positive value,
all else fixed, strictly increases the returned total absorption at every band
where the corresponding specific-absorption factor is positive. -/
theorem C7_absorption_monotonicity (p : FMInputs) (i : ℕ) (c : ℝ)
    (h : shape_ok p = true) (hi : i < p.num_bands) (hc : 0 < c) :
    (p.chl = 0 → 0 < band p.aphy_star i →
      ∃ res res2 : ForwardModelResults, forward_model p = some res ∧
        forward_model { p with chl := c } = some res2 ∧
        band res.a i < band res2.a i) ∧
    (p.cdom = 0 → 0 < band (fm_acdom_star p) i →
      ∃ res res2 : ForwardModelResults, forward_model p = some res ∧
        forward_model { p with cdom := c } = some res2 ∧
        band res.a i < band res2.a i) ∧
    (p.nap = 0 → 0 < band (fm_atr_star p) i →
      ∃ res res2 : ForwardModelResults, forward_model p = some res ∧
        forward_model { p with nap := c } = some res2 ∧
        band res.a i < band res2.a i) := by
  have hl := shape_ok_iff.mp h
  have ha := band_fm_a hl hi
  refine ⟨?_, ?_, ?_⟩
  · intro h0 hpos
    have h' : shape_ok { p with chl := c } = true := h
    refine ⟨forward_model_unchecked p, forward_model_unchecked { p with chl := c },
      forward_model_some h, forward_model_some h', ?_⟩
    have hl' : LenOk { p with chl := c } := hl
    have hi' : i < ({ p with chl := c } : FMInputs).num_bands := hi
    have ha' := band_fm_a hl' hi'
    have e1 : fm_acdom_star { p with chl := c } = fm_acdom_star p := rfl
    have e2 : fm_atr_star { p with chl := c } = fm_atr_star p := rfl
    dsimp only at ha'
    rw [e1, e2] at ha'
    show band (fm_a p) i < band (fm_a { p with chl := c }) i
    rw [ha, ha', h0, zero_mul]
    have hterm := mul_pos hc hpos
    linarith
  · intro h0 hpos
    have h' : shape_ok { p with cdom := c } = true := h
    refine ⟨forward_model_unchecked p, forward_model_unchecked { p with cdom := c },
      forward_model_some h, forward_model_some h', ?_⟩
    have hl' : LenOk { p with cdom := c } := hl
    have hi' : i < ({ p with cdom := c } : FMInputs).num_bands := hi
    have ha' := band_fm_a hl' hi'
    have e1 : fm_acdom_star { p with cdom := c } = fm_acdom_star p := rfl
    have e2 : fm_atr_star { p with cdom := c } = fm_atr_star p := rfl
    dsimp only at ha'
    rw [e1, e2] at ha'
    show band (fm_a p) i < band (fm_a { p with cdom := c }) i
    rw [ha, ha', h0, zero_mul]
    have hterm := mul_pos hc hpos
    linarith
  · intro h0 hpos
    have h' : shape_ok { p with nap := c } = true := h
    refine ⟨forward_model_unchecked p, forward_model_unchecked { p with nap := c },
      forward_model_some h, forward_model_some h', ?_⟩
    have hl' : LenOk { p with nap := c } := hl
    have hi' : i < ({ p with nap := c } : FMInputs).num_bands := hi
    have ha' := band_fm_a hl' hi'
    have e1 : fm_acdom_star { p with nap := c } = fm_acdom_star p := rfl
    have e2 : fm_atr_star { p with nap := c } = fm_atr_star p := rfl
    dsimp only at ha'
    rw [e1, e2] at ha'
    show band (fm_a p) i < band (fm_a { p with nap := c }) i
    rw [ha, ha', h0, zero_mul]
    have hterm := mul_pos hc hpos
    linarith

/-- Witness for C7 at the concrete input `p0`, band 0, increment 1. -/
theorem C7_witness :
    (p0.chl = 0 → 0 < band p0.aphy_star 0 →
      ∃ res res2 : ForwardModelResults, forward_model p0 = some res ∧
        forward_model { p0 with chl := 1 } = some res2 ∧
        band res.a 0 < band res2.a 0) ∧
    (p0.cdom = 0 → 0 < band (fm_acdom_star p0) 0 →
      ∃ res res2 : ForwardModelResults, forward_model p0 = some res ∧
        forward_model { p0 with cdom := 1 } = some res2 ∧
        band res.a 0 < band res2.a 0) ∧
    (p0.nap = 0 → 0 < band (fm_atr_star p0) 0 →
      ∃ res res2 : ForwardModelResults, forward_model p0 = some res ∧
        forward_model { p0 with nap := 1 } = some res2 ∧
        band res.a 0 < band res2.a 0) :=
  C7_absorption_monotonicity p0 0 1 (by decide) (by decide) zero_lt_one
